import Mathlib

/-!
Shallow embedding of the ASIO-based transport layer of this repository
(src/mongo/transport/transport_layer_asio.{h,cpp}, the ServiceExecutorSilly
implementation, and src/mongo/executor/async_stream.cpp), together with
theorems settling the specification claims about it.

Conventions:
* Machine integers are modelled as Nat / Int.  Dates (Date_t) are modelled as
  Int so that the comparison expiration() < Date_t::now() is the ordinary
  integer order.
* Status values are modelled by the inductive TStatus below; the named
  constants ShutdownStatus, Ticket::ExpiredStatus and TicketSessionClosedStatus
  of the TransportLayer interface become distinct constructors.
* A MONGO_UNREACHABLE / invariant failure aborts the process
  (fassertFailedWithLocation in util/assert_util.h is marked noreturn); an
  execution that reaches one is modelled by a dedicated fatal outcome value.
* Byte buffers are lists of Nat; uninitialised bytes of a freshly allocated
  SharedBuffer are modelled as 0.
-/

set_option autoImplicit false

namespace MongoTransport

/-- Status values that the transport layer surfaces to callers, modelling
mongo::Status.  The badValue constructor carries the reason string passed to
ASIOSession::complete(ErrorCodes::BadValue, ...). -/
inductive TStatus where
  /-- Status::OK() -/
  | ok
  /-- TransportLayer::ShutdownStatus (ErrorCodes::ShutdownInProgress) -/
  | shutdownInProgress
  /-- Ticket::ExpiredStatus (ErrorCodes::ExceededTimeLimit) -/
  | ticketExpired
  /-- TransportLayer::TicketSessionClosedStatus (ErrorCodes::TransportSessionClosed) -/
  | sessionClosed
  /-- Status(ErrorCodes::BadValue, msg) -/
  | badValue (msg : String)
  deriving DecidableEq, Repr

/-- Outcome of running a C++ function that either returns normally or hits a
fatal assertion (MONGO_UNREACHABLE / invariant failure, which calls the
noreturn fassertFailedWithLocation and aborts the process). -/
inductive ExecOutcome where
  | returned
  | fatalAssert
  deriving DecidableEq, Repr

namespace TransportLayerASIO

/-- Body of TransportLayerASIO::shutdown() in transport_layer_asio.cpp: the
entire body is MONGO_UNREACHABLE, so every call aborts via a fatal assertion
instead of stopping the accept loops and returning. -/
def shutdown : ExecOutcome :=
  ExecOutcome.fatalAssert

/-- Result of TransportLayerASIO::sourceMessage / sinkMessage, recording
whether the operation was delegated to the session (beginRead / beginWrite
was invoked) and the expiration carried by the returned ASIOTicket. -/
structure SourceSinkResult where
  /-- beginRead (resp. beginWrite) was invoked on the ASIOSession. -/
  delegatedToSession : Bool
  /-- A Ticket was returned to the caller; its ASIOTicket retains this
  expiration date. -/
  ticketExpiration : Int
  deriving DecidableEq, Repr

/-- TransportLayerASIO::sourceMessage: casts the session handle, calls
ASIOSession::beginRead unconditionally, then builds and returns an ASIOTicket
carrying the expiration.  The running flag and the current time are taken as
arguments to show that neither is consulted. -/
def sourceMessage (running : Bool) (now expiration : Int) : SourceSinkResult :=
  let _ := running
  let _ := now
  { delegatedToSession := true, ticketExpiration := expiration }

/-- TransportLayerASIO::sinkMessage: identical shape to sourceMessage with
ASIOSession::beginWrite in place of beginRead. -/
def sinkMessage (running : Bool) (now expiration : Int) : SourceSinkResult :=
  let _ := running
  let _ := now
  { delegatedToSession := true, ticketExpiration := expiration }

/-- Result of TransportLayerASIO::wait.  The status constructor means the
call returned the given status before ever resolving or touching the session;
viaSession means control reached session->wait() (the only branch that can
perform I/O). -/
inductive WaitResult where
  | status (s : TStatus)
  | viaSession
  deriving DecidableEq, Repr

/-- TransportLayerASIO::wait(Ticket&&): checks _running, then the ticket
expiration against Date_t::now(), then resolves the weak session reference
(ASIOTicket::getSession, a weak_ptr lock modelled by sessionAlive), and only
then calls session->wait(). -/
def wait (running : Bool) (now expiration : Int) (sessionAlive : Bool) :
    WaitResult :=
  if running = false then WaitResult.status TStatus.shutdownInProgress
  else if expiration < now then WaitResult.status TStatus.ticketExpired
  else if sessionAlive = false then WaitResult.status TStatus.sessionClosed
  else WaitResult.viaSession

/-- Result of TransportLayerASIO::asyncWait.  The callback constructor means
the registered callback was invoked immediately with the given status without
touching the stream; fatalClosedCall means control reached the
session->closed() call, whose body is MONGO_UNREACHABLE and aborts. -/
inductive AsyncWaitResult where
  | callback (s : TStatus)
  | fatalClosedCall
  deriving DecidableEq, Repr

/-- TransportLayerASIO::asyncWait(Ticket&&, TicketCallback): same check order
as wait; for a live session it additionally calls session->closed(), whose
body is MONGO_UNREACHABLE, before it could hand off to the session. -/
def asyncWait (running : Bool) (now expiration : Int) (sessionAlive : Bool) :
    AsyncWaitResult :=
  if running = false then AsyncWaitResult.callback TStatus.shutdownInProgress
  else if expiration < now then AsyncWaitResult.callback TStatus.ticketExpired
  else if sessionAlive = false then AsyncWaitResult.callback TStatus.sessionClosed
  else AsyncWaitResult.fatalClosedCall

/-- Effects performed by the completion handler that
TransportLayerASIO::_begin_accept registers with acceptor.async_accept.  The
handler receives the accept std::error_code as its parameter. -/
structure AcceptEffects where
  /-- socket->non_blocking(true) was executed. -/
  madeSocketNonBlocking : Bool
  /-- An ASIOSession was constructed around the socket. -/
  constructedSession : Bool
  /-- The session was spliced into the _sessions registry under _sessionsMutex. -/
  registeredSession : Bool
  /-- _sep->startSession(session) handed the session to the dispatcher. -/
  handedToDispatcher : Bool
  /-- _begin_accept(acceptor) was invoked again to re-arm the accept loop. -/
  rearmedAccept : Bool
  deriving DecidableEq, Repr

/-- The accept completion handler of TransportLayerASIO::_begin_accept.  Its
std::error_code parameter ec is bound but never inspected: the handler body
unconditionally marks the socket non-blocking, constructs an ASIOSession,
registers it, calls _sep->startSession and re-arms the accept loop.  ec is
modelled as a Nat (0 meaning success) to show no branch depends on it. -/
def acceptHandler (ec : Nat) : AcceptEffects :=
  let _ := ec
  { madeSocketNonBlocking := true
    constructedSession := true
    registeredSession := true
    handedToDispatcher := true
    rearmedAccept := true }

namespace AsyncStream

/-- State of the bytes flowing from the peer into one connected socket: the
full ordered byte stream the peer writes (wire) and how many of its bytes
have already been consumed by reads on this side. -/
structure SocketState where
  wire : List Nat
  consumed : Nat
  deriving DecidableEq, Repr

/-- Modelled from the spec: the synchronous non-blocking read primitive of
AsyncStream (readStream in executor/async_stream_common.h, which is not part
of this snapshot; async_stream.cpp delegates to it).  Per spec section 4.1 a
synchronous read attempts a non-blocking transfer and returns immediately,
reporting would-block instead of failing when the peer has not yet delivered
enough bytes.  avail is the number of wire bytes the peer has delivered at
the moment of the call; the read consumes up to n of the undelivered-to-us
bytes and reports would-block exactly when fewer than n were transferred. -/
def read (sock : SocketState) (avail n : Nat) : List Nat × SocketState × Bool :=
  let k := min n (avail - sock.consumed)
  ((sock.wire.drop sock.consumed).take k,
   { wire := sock.wire, consumed := sock.consumed + k },
   decide (k < n))

/-- Modelled from the spec: the asynchronous read primitive of AsyncStream
(readStream in executor/async_stream_common.h, not in this snapshot), which
registers a continuation with the reactor for a buffer of n bytes; the
continuation is invoked once the full n bytes have been transferred.  If the
peer never delivers n further bytes the continuation never runs, modelled by
none (the read never completes). -/
def asyncRead (sock : SocketState) (n : Nat) : Option (List Nat × SocketState) :=
  if sock.consumed + n ≤ sock.wire.length then
    some ((sock.wire.drop sock.consumed).take n,
          { wire := sock.wire, consumed := sock.consumed + n })
  else none

end AsyncStream

/-- Overwrite the bytes of buf starting at offset off with the given bytes
(the effect of a read landing in an asio::buffer placed at that offset). -/
def writeAt (buf : List Nat) (off : Nat) (bytes : List Nat) : List Nat :=
  buf.take off ++ bytes ++ buf.drop (off + bytes.length)

/-- Modelled from the spec: MsgData::ConstView::getLen (util/net/message.h is
not in this snapshot).  Per spec section 6 the fixed-size header starts with
a little-endian 32-bit total-length field covering header plus body. -/
def getLen (buf : List Nat) : Nat :=
  buf.getD 0 0 + 256 * buf.getD 1 0 + 65536 * buf.getD 2 0
    + 16777216 * buf.getD 3 0

/-- Modelled from the spec: SharedBuffer::realloc (util/shared_buffer.h is
not in this snapshot) grows the allocation to n bytes preserving the existing
contents, per spec section 4.2 (the reallocation preserves the already-read
header bytes); fresh bytes are uninitialised, modelled as 0. -/
def reallocBuf (buf : List Nat) (n : Nat) : List Nat :=
  buf.take n ++ List.replicate (n - buf.length) 0

/-- kHeaderLen = sizeof(MSGHEADER::Value): four 32-bit fields (messageLength,
requestID, responseTo, opCode), 16 bytes. -/
def kHeaderLen : Nat := 16

/-- kInitialMessageSize from transport_layer_asio.cpp. -/
def kInitialMessageSize : Nat := 1024

namespace ASIOSession

/-- The per-session completion slot of ASIOSession: the boost::optional of
Status field _status together with the TicketCallback field _callback, both
guarded by _mutex.  A moved-from std::function tests false, so the callback
is modelled by a Bool recording whether a callback is currently registered. -/
structure CompletionState where
  status : Option TStatus
  callback : Bool
  deriving DecidableEq, Repr

/-- What a single invocation of ASIOSession::_complete did with its status. -/
inductive CompleteEffect where
  /-- The status was stored into the _status slot. -/
  | stored
  /-- The registered callback was taken and invoked with the status. -/
  | invoked (s : TStatus)
  /-- A status was already present, so the new one was silently discarded. -/
  | dropped (s : TStatus)
  deriving DecidableEq, Repr

/-- ASIOSession::_complete(Status&&): under _mutex, if _status is engaged the
call returns doing nothing; otherwise if no callback is registered the status
is stored; otherwise the callback is moved out and invoked with the status
(leaving _status disengaged and _callback empty). -/
def _complete (st : CompletionState) (s : TStatus) :
    CompletionState × CompleteEffect :=
  if st.status.isSome then
    (st, CompleteEffect.dropped s)
  else if st.callback = false then
    ({ status := some s, callback := st.callback }, CompleteEffect.stored)
  else
    ({ status := none, callback := false }, CompleteEffect.invoked s)

/-- ASIOSession::getOperationStatus() (the consuming overload): under _mutex
it asserts invariant(!_callback) — modelled as the none (process abort) case —
then swaps the slot out and returns it, leaving the slot disengaged. -/
def getOperationStatus (st : CompletionState) :
    Option (CompletionState × Option TStatus) :=
  if st.callback then none
  else some ({ status := none, callback := st.callback }, st.status)

/-- ASIOSession::getOperationStatus(Ticket&&, TicketCallback&&) (the
registration overload used by the async path): under _mutex, if _status is
engaged the callback is invoked immediately with _status.get() — note the
slot is NOT cleared — otherwise the callback is stored in _callback.  The
second component is the status the callback was invoked with, if any. -/
def registerCallback (st : CompletionState) :
    CompletionState × Option TStatus :=
  match st.status with
  | some s => (st, some s)
  | none => ({ status := st.status, callback := true }, none)

/-- ASIOSession::wait() (the synchronous wait): its body only calls
_io_service.poll_one() and then falls off the end of the function — it never
takes _mutex, never reads the _status slot, and produces no defined Status
(the declared return type in the .cpp is the undeclared lowercase spelling
and the function has no return statement).  The completion state is returned
untouched together with none for the absent result. -/
def wait (st : CompletionState) : CompletionState × Option TStatus :=
  (st, none)

/-- ASIOSession::continueRead, reached once the 16 header bytes are in buf.
msgLen is read from the length field; there is no validation of it (the body
carries only a TODO), so when it exceeds kInitialMessageSize the buffer is
immediately reallocated to the declared size.  A synchronous body read of
msgLen - kHeaderLen bytes lands at buffer offset kHeaderLen (MsgData data());
on would-block an asynchronous read is registered for the remaining span at
offset kHeaderLen + bytesRead.  availBody is the number of wire bytes the
peer has delivered at the moment of the synchronous body attempt.  The result
is the buffer handed to Message::setData paired with the completion status,
or none when the registered continuation is never invoked.  (The C++ msgLen
is a size_t; for msgLen below kHeaderLen the C++ subtraction would wrap while
Nat subtraction truncates to 0, so theorems only use msgLen of at least
kHeaderLen.) -/
def continueRead (sock : AsyncStream.SocketState) (availBody : Nat)
    (buf : List Nat) : Option (List Nat × TStatus) :=
  let msgLen := getLen buf
  let buf1 := if kInitialMessageSize < msgLen then reallocBuf buf msgLen else buf
  let r := AsyncStream.read sock availBody (msgLen - kHeaderLen)
  let bytes := r.1
  let sock1 := r.2.1
  let wouldBlock := r.2.2
  let buf2 := writeAt buf1 kHeaderLen bytes
  if wouldBlock = false then
    some (buf2.take msgLen, TStatus.ok)
  else
    match AsyncStream.asyncRead sock1 (msgLen - kHeaderLen - bytes.length) with
    | none => none
    | some (bytes2, _) =>
        some ((writeAt buf2 (kHeaderLen + bytes.length) bytes2).take msgLen,
              TStatus.ok)

/-- ASIOSession::beginRead: allocates a kInitialMessageSize buffer and
attempts a synchronous read of the kHeaderLen header bytes.  On full transfer
it proceeds to continueRead; on would-block it registers an asynchronous read
whose asio buffer again spans the FULL header region at offset 0 — the span
is not advanced past the bytes the synchronous attempt already consumed —
and whose continuation proceeds to continueRead.  availHeader and availBody
are the wire bytes the peer has delivered at the two synchronous attempts;
none means the read never completes. -/
def beginRead (wire : List Nat) (availHeader availBody : Nat) :
    Option (List Nat × TStatus) :=
  let buf0 := List.replicate kInitialMessageSize 0
  let sock0 : AsyncStream.SocketState := { wire := wire, consumed := 0 }
  let r := AsyncStream.read sock0 availHeader kHeaderLen
  let hbytes := r.1
  let sock1 := r.2.1
  let wouldBlock := r.2.2
  let buf1 := writeAt buf0 0 hbytes
  if wouldBlock = false then
    continueRead sock1 availBody buf1
  else
    match AsyncStream.asyncRead sock1 kHeaderLen with
    | none => none
    | some (hbytes2, sock2) =>
        continueRead sock2 availBody (writeAt buf1 0 hbytes2)

/-- The decision continueRead takes about the declared message length.  The
reject constructor exists so the absence of any rejecting branch in the code
is expressible: continueRead never produces it. -/
inductive LenAction where
  | keep
  | growTo (n : Nat)
  | reject
  deriving DecidableEq, Repr

/-- Whether a LenAction is the protocol-error rejection. -/
def LenAction.isReject : LenAction → Bool
  | LenAction.reject => true
  | _ => false

/-- The length-handling prefix of ASIOSession::continueRead, viewed
symbolically: the declared length is compared only against
kInitialMessageSize (the validation of msgLen is an unimplemented TODO in the
source); an oversized declared length reallocates the buffer to exactly the
declared size and is never rejected. -/
def continueReadLenAction (msgLen : Nat) : LenAction :=
  if kInitialMessageSize < msgLen then LenAction.growTo msgLen
  else LenAction.keep

end ASIOSession

end TransportLayerASIO

namespace ServiceExecutorSilly

/-- Executor tuning parameters: the server parameters
sillyServiceExecutorReserveThreads and sillyServiceExecutorThreadAgeLimit
(the idle timeout only bounds how long run_for blocks and plays no role in
the state transitions themselves). -/
structure Cfg where
  reserveThreads : Nat
  threadAgeLimit : Nat
  deriving DecidableEq, Repr

/-- Control point of one worker thread of ServiceExecutorSilly. -/
inductive TPhase where
  /-- Created by _addThread; has not yet executed _threadsRunning.fetchAndAdd(1)
  at the top of _threadRoutine. -/
  | starting
  /-- Inside the while loop; tasks is the thread-local tasksExecuted counter. -/
  | looping (tasks : Nat)
  /-- Has broken out of the loop; the scope-guard decrement of _threadsRunning
  and the erasure from _threads have not yet run. -/
  | exiting (tasks : Nat)
  deriving DecidableEq, Repr

/-- Whether a thread is inside the loop (counted by _threadsRunning once its
initial fetchAndAdd has run). -/
def TPhase.isLooping : TPhase → Bool
  | TPhase.looping _ => true
  | _ => false

/-- Shared state of ServiceExecutorSilly: the atomic _isRunning flag, the
atomic counters _threadsRunning and _tasksExecuting, and the _threads list
(guarded by _mutex). -/
structure ExecState where
  isRunning : Bool
  threadsRunning : Nat
  tasksExecuting : Nat
  threads : List TPhase
  deriving DecidableEq, Repr

/-- ServiceExecutorSilly::_schedule: rejects with BadValue when not running
(modelled by none); otherwise increments _tasksExecuting, computes
needed = max(reserveThreads, 1) + tasksExecuting - threadsRunning as a signed
quantity, spawns that many threads when positive (each _addThread emplaces at
the front of _threads), and posts the wrapped task. -/
def _schedule (cfg : Cfg) (s : ExecState) : Option ExecState :=
  if s.isRunning = false then none
  else
    let tasksExecuting := s.tasksExecuting + 1
    let needed : Int := Int.ofNat (max cfg.reserveThreads 1)
      + Int.ofNat tasksExecuting - Int.ofNat s.threadsRunning
    some { s with
      tasksExecuting := tasksExecuting
      threads := List.replicate needed.toNat TPhase.starting ++ s.threads }

/-- ServiceExecutorSilly::start: sets _isRunning and spawns reserveThreads
workers via _addThread; each is created in the starting phase since the
fetchAndAdd at the top of _threadRoutine runs on the new thread itself. -/
def start (cfg : Cfg) : ExecState :=
  { isRunning := true
    threadsRunning := 0
    tasksExecuting := 0
    threads := List.replicate cfg.reserveThreads TPhase.starting }

/-- One scheduling step of the executor: each constructor is one of the
individually-atomic operations the worker routine _threadRoutine, _schedule
and shutdown perform on the shared state; distinct threads interleave these
steps arbitrarily. -/
inductive ExecAction where
  /-- Thread i runs the first line of _threadRoutine:
  _threadsRunning.fetchAndAdd(1), then enters the loop. -/
  | startThread (i : Nat)
  /-- run_for on thread i executes one posted wrappedTask: the task body runs,
  thread-local tasksExecuted is incremented and the guard decrements
  _tasksExecuting. -/
  | runTask (i : Nat)
  /-- Thread i saw work, finds tasksExecuted at or past the age limit, calls
  _addThread (emplacing a replacement at the front of _threads) and breaks. -/
  | ageRetire (i : Nat)
  /-- Thread i saw no work and loads _threadsRunning, observing it above
  max(reserveThreads, 1); it breaks out of the loop. -/
  | idleObserve (i : Nat)
  /-- Thread i loads _isRunning as false and breaks out of the loop. -/
  | noticeShutdown (i : Nat)
  /-- The scope guard and epilogue of thread i after its break:
  _threadsRunning.subtractAndFetch(1) and erasure from _threads. -/
  | finishExit (i : Nat)
  /-- A caller invokes _schedule with one task. -/
  | schedule
  /-- shutdown() stores false into _isRunning and stops the io_context. -/
  | stop
  deriving DecidableEq, Repr

/-- Faithful interleaved semantics of ServiceExecutorSilly: the guard of an
idle or age exit (a load of the atomics) and the later decrement of
_threadsRunning in the scope guard are separate steps, exactly as they are
separate operations in _threadRoutine.  none means the action is not enabled
in this state. -/
def step (cfg : Cfg) (s : ExecState) (a : ExecAction) : Option ExecState :=
  match a with
  | ExecAction.startThread i =>
    match s.threads[i]? with
    | some TPhase.starting =>
        some { s with
          threadsRunning := s.threadsRunning + 1
          threads := s.threads.set i (TPhase.looping 0) }
    | _ => none
  | ExecAction.runTask i =>
    match s.threads[i]? with
    | some (TPhase.looping t) =>
        if 0 < s.tasksExecuting then
          some { s with
            tasksExecuting := s.tasksExecuting - 1
            threads := s.threads.set i (TPhase.looping (t + 1)) }
        else none
    | _ => none
  | ExecAction.ageRetire i =>
    match s.threads[i]? with
    | some (TPhase.looping t) =>
        if s.isRunning = true then
          if cfg.threadAgeLimit ≤ t then
            some { s with
              threads := TPhase.starting :: s.threads.set i (TPhase.exiting t) }
          else none
        else none
    | _ => none
  | ExecAction.idleObserve i =>
    match s.threads[i]? with
    | some (TPhase.looping t) =>
        if s.isRunning = true then
          if max cfg.reserveThreads 1 < s.threadsRunning then
            some { s with threads := s.threads.set i (TPhase.exiting t) }
          else none
        else none
    | _ => none
  | ExecAction.noticeShutdown i =>
    match s.threads[i]? with
    | some (TPhase.looping t) =>
        if s.isRunning = false then
          some { s with threads := s.threads.set i (TPhase.exiting t) }
        else none
    | _ => none
  | ExecAction.finishExit i =>
    match s.threads[i]? with
    | some (TPhase.exiting _) =>
        some { s with
          threadsRunning := s.threadsRunning - 1
          threads := s.threads.eraseIdx i }
    | _ => none
  | ExecAction.schedule => _schedule cfg s
  | ExecAction.stop => some { s with isRunning := false }

/-- Run a sequence of interleaved steps. -/
def runTrace (cfg : Cfg) : ExecState → List ExecAction → Option ExecState
  | s, [] => some s
  | s, a :: rest =>
    match step cfg s a with
    | none => none
    | some s1 => runTrace cfg s1 rest

/-- The same worker routine under the serialized-exit discipline assumed by
the amended claim: a thread's exit observation (idle, age or shutdown) and
its scope-guard decrement plus erasure execute as one uninterrupted action,
so no other thread can observe the stale _threadsRunning value in between.
finishExit has no separate step here. -/
def stepSerialized (cfg : Cfg) (s : ExecState) (a : ExecAction) :
    Option ExecState :=
  match a with
  | ExecAction.ageRetire i =>
    match s.threads[i]? with
    | some (TPhase.looping t) =>
        if s.isRunning = true then
          if cfg.threadAgeLimit ≤ t then
            some { s with
              threadsRunning := s.threadsRunning - 1
              threads := TPhase.starting :: s.threads.eraseIdx i }
          else none
        else none
    | _ => none
  | ExecAction.idleObserve i =>
    match s.threads[i]? with
    | some (TPhase.looping _) =>
        if s.isRunning = true then
          if max cfg.reserveThreads 1 < s.threadsRunning then
            some { s with
              threadsRunning := s.threadsRunning - 1
              threads := s.threads.eraseIdx i }
          else none
        else none
    | _ => none
  | ExecAction.noticeShutdown i =>
    match s.threads[i]? with
    | some (TPhase.looping _) =>
        if s.isRunning = false then
          some { s with
            threadsRunning := s.threadsRunning - 1
            threads := s.threads.eraseIdx i }
        else none
    | _ => none
  | ExecAction.finishExit _ => none
  | _ => step cfg s a

/-- Run a sequence of serialized-exit steps. -/
def runTraceSerialized (cfg : Cfg) : ExecState → List ExecAction → Option ExecState
  | s, [] => some s
  | s, a :: rest =>
    match stepSerialized cfg s a with
    | none => none
    | some s1 => runTraceSerialized cfg s1 rest

/-- Number of threads counted by _threadsRunning (those past their initial
fetchAndAdd and before their scope-guard decrement). -/
def countLooping (l : List TPhase) : Nat :=
  l.countP TPhase.isLooping

/-- The executor pool invariant of the amended claim: the _threadsRunning
counter agrees with the number of looping threads, and while the executor is
running the worker pool holds at least reserveThreads threads. -/
def Inv (cfg : Cfg) (s : ExecState) : Prop :=
  s.threadsRunning = countLooping s.threads ∧
  (s.isRunning = true → cfg.reserveThreads ≤ s.threads.length)

/-- The configuration used by the concrete executor scenarios: a reserve of
two threads and the default age limit. -/
def cfgR2 : Cfg :=
  { reserveThreads := 2, threadAgeLimit := 512 }

end ServiceExecutorSilly

/-- The 20-byte wire message used by the concrete read scenarios: a 16-byte
header whose little-endian length field declares 20 bytes total (header plus
a 4-byte body), followed by that body. -/
def c1Wire : List Nat :=
  [20, 0, 0, 0, 1, 2, 3, 4, 5, 6, 7, 8, 9, 10, 11, 12, 101, 102, 103, 104]

/-! Helper lemmas about the worker-list counting used by the executor
invariant. -/

namespace ServiceExecutorSilly

theorem countLooping_le_length (l : List TPhase) : countLooping l ≤ l.length :=
  List.countP_le_length _

theorem countLooping_set (l : List TPhase) (i : Nat) (x y : TPhase)
    (h : l[i]? = some x) :
    countLooping (l.set i y) + (if x.isLooping = true then 1 else 0)
      = countLooping l + (if y.isLooping = true then 1 else 0) := by
  induction l generalizing i with
  | nil => simp at h
  | cons a as ih =>
    cases i with
    | zero =>
      simp only [List.getElem?_cons_zero, Option.some.injEq] at h
      subst h
      simp only [List.set, countLooping, List.countP_cons]
      omega
    | succ n =>
      simp only [List.getElem?_cons_succ] at h
      have hrec := ih n h
      simp only [List.set, countLooping, List.countP_cons] at hrec ⊢
      omega

theorem countLooping_eraseIdx (l : List TPhase) (i : Nat) (x : TPhase)
    (h : l[i]? = some x) :
    countLooping (l.eraseIdx i) + (if x.isLooping = true then 1 else 0)
      = countLooping l := by
  induction l generalizing i with
  | nil => simp at h
  | cons a as ih =>
    cases i with
    | zero =>
      simp only [List.getElem?_cons_zero, Option.some.injEq] at h
      subst h
      simp only [List.eraseIdx, countLooping, List.countP_cons]
    | succ n =>
      simp only [List.getElem?_cons_succ] at h
      have hrec := ih n h
      simp only [List.eraseIdx, countLooping, List.countP_cons] at hrec ⊢
      omega

theorem length_eraseIdx_of_getElem (l : List TPhase) (i : Nat) (x : TPhase)
    (h : l[i]? = some x) :
    (l.eraseIdx i).length + 1 = l.length := by
  induction l generalizing i with
  | nil => simp at h
  | cons a as ih =>
    cases i with
    | zero => simp [List.eraseIdx]
    | succ n =>
      simp only [List.getElem?_cons_succ] at h
      have hrec := ih n h
      simp only [List.eraseIdx, List.length_cons]
      omega

theorem countLooping_replicate_starting (n : Nat) (l : List TPhase) :
    countLooping (List.replicate n TPhase.starting ++ l) = countLooping l := by
  induction n with
  | zero => simp
  | succ m ih =>
    simp only [List.replicate, List.cons_append, countLooping,
      List.countP_cons] at ih ⊢
    simp [TPhase.isLooping, ih]

/-- Preservation of the executor pool invariant by one serialized-exit step. -/
theorem stepSerialized_inv (cfg : Cfg) (s s' : ExecState) (a : ExecAction)
    (hInv : Inv cfg s) (h : stepSerialized cfg s a = some s') :
    Inv cfg s' := by
  obtain ⟨hc, hr⟩ := hInv
  cases a with
  | startThread i =>
    simp only [stepSerialized, step] at h
    cases hx : s.threads[i]? with
    | none => rw [hx] at h; simp at h
    | some ph =>
      cases ph with
      | looping t => rw [hx] at h; simp at h
      | exiting t => rw [hx] at h; simp at h
      | starting =>
        rw [hx] at h
        simp only [] at h
        cases h
        have hset := countLooping_set s.threads i TPhase.starting
          (TPhase.looping 0) hx
        simp [TPhase.isLooping] at hset
        refine ⟨by simp only []; omega, ?_⟩
        intro hrun
        have := hr hrun
        simpa [List.length_set] using this
  | runTask i =>
    simp only [stepSerialized, step] at h
    cases hx : s.threads[i]? with
    | none => rw [hx] at h; simp at h
    | some ph =>
      cases ph with
      | starting => rw [hx] at h; simp at h
      | exiting t => rw [hx] at h; simp at h
      | looping t =>
        rw [hx] at h
        simp only [] at h
        by_cases ht : 0 < s.tasksExecuting
        · rw [if_pos ht] at h
          cases h
          have hset := countLooping_set s.threads i (TPhase.looping t)
            (TPhase.looping (t + 1)) hx
          simp [TPhase.isLooping] at hset
          refine ⟨by simp only []; omega, ?_⟩
          intro hrun
          have := hr hrun
          simpa [List.length_set] using this
        · rw [if_neg ht] at h; cases h
  | ageRetire i =>
    simp only [stepSerialized] at h
    cases hx : s.threads[i]? with
    | none => rw [hx] at h; simp at h
    | some ph =>
      cases ph with
      | starting => rw [hx] at h; simp at h
      | exiting t => rw [hx] at h; simp at h
      | looping t =>
        rw [hx] at h
        simp only [] at h
        by_cases hrun : s.isRunning = true
        · rw [if_pos hrun] at h
          by_cases hage : cfg.threadAgeLimit ≤ t
          · rw [if_pos hage] at h
            cases h
            have herase := countLooping_eraseIdx s.threads i
              (TPhase.looping t) hx
            have hlen := length_eraseIdx_of_getElem s.threads i
              (TPhase.looping t) hx
            simp [TPhase.isLooping] at herase
            have hcons : countLooping (TPhase.starting :: s.threads.eraseIdx i)
                = countLooping (s.threads.eraseIdx i) := by
              simp [countLooping, List.countP_cons, TPhase.isLooping]
            refine ⟨by simp only []; omega, ?_⟩
            intro _
            have := hr hrun
            simp only [List.length_cons]
            omega
          · rw [if_neg hage] at h; cases h
        · rw [if_neg hrun] at h; cases h
  | idleObserve i =>
    simp only [stepSerialized] at h
    cases hx : s.threads[i]? with
    | none => rw [hx] at h; simp at h
    | some ph =>
      cases ph with
      | starting => rw [hx] at h; simp at h
      | exiting t => rw [hx] at h; simp at h
      | looping t =>
        rw [hx] at h
        simp only [] at h
        by_cases hrun : s.isRunning = true
        · rw [if_pos hrun] at h
          by_cases hgt : max cfg.reserveThreads 1 < s.threadsRunning
          · rw [if_pos hgt] at h
            cases h
            have herase := countLooping_eraseIdx s.threads i
              (TPhase.looping t) hx
            have hlen := length_eraseIdx_of_getElem s.threads i
              (TPhase.looping t) hx
            have hle := countLooping_le_length s.threads
            have hmax : cfg.reserveThreads ≤ max cfg.reserveThreads 1 :=
              le_max_left _ _
            simp [TPhase.isLooping] at herase
            refine ⟨by simp only []; omega, ?_⟩
            intro _
            simp only []
            omega
          · rw [if_neg hgt] at h; cases h
        · rw [if_neg hrun] at h; cases h
  | noticeShutdown i =>
    simp only [stepSerialized] at h
    cases hx : s.threads[i]? with
    | none => rw [hx] at h; simp at h
    | some ph =>
      cases ph with
      | starting => rw [hx] at h; simp at h
      | exiting t => rw [hx] at h; simp at h
      | looping t =>
        rw [hx] at h
        simp only [] at h
        by_cases hstop : s.isRunning = false
        · rw [if_pos hstop] at h
          cases h
          have herase := countLooping_eraseIdx s.threads i
            (TPhase.looping t) hx
          simp [TPhase.isLooping] at herase
          refine ⟨by simp only []; omega, ?_⟩
          intro hrun
          simp [hstop] at hrun
        · rw [if_neg hstop] at h; cases h
  | finishExit i =>
    simp only [stepSerialized] at h
    cases h
  | schedule =>
    simp only [stepSerialized, step, _schedule] at h
    by_cases hstop : s.isRunning = false
    · rw [if_pos hstop] at h; cases h
    · rw [if_neg hstop] at h
      cases h
      refine ⟨?_, ?_⟩
      · simp only [countLooping_replicate_starting]
        exact hc
      · intro hrun
        have := hr hrun
        simp only [List.length_append, List.length_replicate]
        omega
  | stop =>
    simp only [stepSerialized, step] at h
    cases h
    exact ⟨hc, fun hrun => absurd hrun (by simp)⟩

/-- Preservation of the executor pool invariant along a serialized-exit
trace. -/
theorem runTraceSerialized_inv (cfg : Cfg) (acts : List ExecAction)
    (s s' : ExecState) (hInv : Inv cfg s)
    (h : runTraceSerialized cfg s acts = some s') :
    Inv cfg s' := by
  induction acts generalizing s with
  | nil =>
    simp only [runTraceSerialized, Option.some.injEq] at h
    subst h
    exact hInv
  | cons a rest ih =>
    simp only [runTraceSerialized] at h
    cases hs : stepSerialized cfg s a with
    | none => rw [hs] at h; cases h
    | some s1 =>
      rw [hs] at h
      exact ih s1 (stepSerialized_inv cfg s s1 a hInv hs) h

end ServiceExecutorSilly

/-! Settlement of the specification claims. -/

open TransportLayerASIO ServiceExecutorSilly

/-- C1: for every message within the configured maximum delivered as an
arbitrary sequence of partial transfers, beginRead/continueRead completes
with exactly the original header+body bytes.  This fails on the code: when
the peer has delivered all 16 header bytes by the synchronous attempt the
read completes with the original bytes (first two conjuncts, one of them with
the 4-byte body itself split across a partial synchronous read), but when
only 5 header bytes have arrived at the synchronous attempt, the async
continuation is re-registered over the full 16-byte header span at offset 0
instead of the remaining 11 bytes, so it demands 16 fresh wire bytes of which
only 15 will ever arrive and the read never completes (third conjunct). -/
theorem c1_fragmented_header_read_never_completes :
    ASIOSession.beginRead c1Wire 16 20 = some (c1Wire, TStatus.ok) ∧
    ASIOSession.beginRead c1Wire 0 16 = some (c1Wire, TStatus.ok) ∧
    ASIOSession.beginRead c1Wire 5 20 = none :=
  ⟨rfl, rfl, rfl⟩

/-- C2 counterexample: after a first completion is delivered through the
registered callback, a second invocation of the completion path for the same
operation is not a silent no-op — it stores its status into the now-empty
slot, and that second result is then observable through getOperationStatus,
so both results are observed. -/
theorem c2_counterexample :
    ASIOSession._complete { status := none, callback := true } TStatus.ok
      = ({ status := none, callback := false },
         ASIOSession.CompleteEffect.invoked TStatus.ok) ∧
    ASIOSession._complete { status := none, callback := false }
        (TStatus.badValue "late")
      = ({ status := some (TStatus.badValue "late"), callback := false },
         ASIOSession.CompleteEffect.stored) ∧
    ASIOSession.getOperationStatus
        { status := some (TStatus.badValue "late"), callback := false }
      = some ({ status := none, callback := false },
              some (TStatus.badValue "late")) :=
  ⟨rfl, rfl, rfl⟩

/-- C2 amended: when the first invocation of the completion path stored its
status in the slot, a second invocation for the same operation is a no-op:
the second status is silently dropped and the slot still holds the first
result. -/
theorem c2_second_completion_dropped_after_store
    (st : ASIOSession.CompletionState) (s1 s2 : TStatus)
    (h : (ASIOSession._complete st s1).2 = ASIOSession.CompleteEffect.stored) :
    ASIOSession._complete (ASIOSession._complete st s1).1 s2
      = ((ASIOSession._complete st s1).1,
         ASIOSession.CompleteEffect.dropped s2) := by
  rcases st with ⟨status, callback⟩
  cases status with
  | some s => simp [ASIOSession._complete] at h
  | none =>
    cases callback with
    | true => simp [ASIOSession._complete] at h
    | false => simp [ASIOSession._complete]

/-- C2 witness: a concrete run of the amended claim — a stored first result
followed by a dropped second completion. -/
theorem c2_second_completion_dropped_after_store_witness :
    (ASIOSession._complete { status := none, callback := false } TStatus.ok).2
      = ASIOSession.CompleteEffect.stored ∧
    ASIOSession._complete
        (ASIOSession._complete { status := none, callback := false }
          TStatus.ok).1 (TStatus.badValue "dup")
      = ((ASIOSession._complete { status := none, callback := false }
          TStatus.ok).1,
         ASIOSession.CompleteEffect.dropped (TStatus.badValue "dup")) :=
  ⟨rfl, c2_second_completion_dropped_after_store
    { status := none, callback := false } TStatus.ok (TStatus.badValue "dup")
    rfl⟩

/-- C3: the claim that shutdown() stops the accept loops and returns fails on
the code: the body of TransportLayerASIO::shutdown() is MONGO_UNREACHABLE,
so every call aborts through a fatal assertion, contradicting the
repository's own TestShutdownDoesNotHang test. -/
theorem c3_shutdown_is_fatal_assert :
    TransportLayerASIO.shutdown = ExecOutcome.fatalAssert :=
  rfl

/-- C4: the claim that an unreasonable declared length is rejected fails on
the code: continueRead performs no validation of msgLen (the source carries
only a TODO), so a declared length of 2147483632 bytes — far beyond any
reasonable ceiling — causes the buffer to be reallocated to exactly that
size, and no declared length whatsoever is ever rejected. -/
theorem c4_oversized_length_grown_not_rejected :
    ASIOSession.continueReadLenAction 2147483632
      = ASIOSession.LenAction.growTo 2147483632 ∧
    ∀ msgLen : Nat,
      (ASIOSession.continueReadLenAction msgLen).isReject = false := by
  constructor
  · norm_num [ASIOSession.continueReadLenAction, kInitialMessageSize]
  · intro msgLen
    unfold ASIOSession.continueReadLenAction
    split
    · rfl
    · rfl

/-- C5 counterexample: with the transport layer not running and the ticket
deadline already past (expiration 0, now 10), sourceMessage and sinkMessage
perform no validation and still delegate to the session. -/
theorem c5_counterexample :
    (0 : Int) < 10 ∧
    (sourceMessage false 10 0).delegatedToSession = true ∧
    (sinkMessage false 10 0).delegatedToSession = true :=
  ⟨by decide, rfl, rfl⟩

/-- C5 amended: sourceMessage and sinkMessage perform no running or deadline
validation at all: for every transport state and deadline they delegate to
the Session (beginRead resp. beginWrite) unconditionally and return a Ticket
carrying the given expiration either way; the running and deadline checks are
performed later, by wait and asyncWait. -/
theorem c5_source_sink_no_validation (running : Bool) (now expiration : Int) :
    sourceMessage running now expiration
      = { delegatedToSession := true, ticketExpiration := expiration } ∧
    sinkMessage running now expiration
      = { delegatedToSession := true, ticketExpiration := expiration } :=
  ⟨rfl, rfl⟩

/-- C6 counterexample: a ticket whose deadline has passed (expiration 0, now
10) does not make wait return the expired error when the transport layer is
not running — the shutdown status is returned instead, because the _running
check precedes the expiration check. -/
theorem c6_counterexample :
    (0 : Int) < 10 ∧
    TransportLayerASIO.wait false 10 0 true
      = WaitResult.status TStatus.shutdownInProgress :=
  ⟨by decide, rfl⟩

/-- C6 amended: provided the transport layer is running, a ticket whose
deadline has passed makes wait return — and asyncWait invoke its callback
with — the expired error without resolving or touching the session. -/
theorem c6_expired_short_circuits (now expiration : Int) (alive : Bool)
    (h : expiration < now) :
    TransportLayerASIO.wait true now expiration alive
      = WaitResult.status TStatus.ticketExpired ∧
    TransportLayerASIO.asyncWait true now expiration alive
      = AsyncWaitResult.callback TStatus.ticketExpired := by
  constructor
  · simp [ TransportLayerASIO.wait, h]
  · simp [ TransportLayerASIO.asyncWait, h]

/-- C6 witness: the amended claim at expiration 0, now 10, live session. -/
theorem c6_expired_short_circuits_witness :
    (0 : Int) < 10 ∧
    ( TransportLayerASIO.wait true 10 0 true
       = WaitResult.status TStatus.ticketExpired ∧
     TransportLayerASIO.asyncWait true 10 0 true
       = AsyncWaitResult.callback TStatus.ticketExpired) :=
  ⟨by decide, c6_expired_short_circuits 10 0 true (by decide)⟩

/-- C7 counterexample: a ticket whose session has been destroyed (the weak
reference fails to resolve) does not make wait return the session-closed
error when the ticket has also expired — the expiration check precedes the
session resolution, so the expired error is returned instead. -/
theorem c7_counterexample :
    (0 : Int) < 10 ∧
    TransportLayerASIO.wait true 10 0 false
      = WaitResult.status TStatus.ticketExpired :=
  ⟨by decide, rfl⟩

/-- C7 amended: provided the transport layer is running and the ticket has
not expired, a ticket whose owning session has been destroyed makes wait
return — and asyncWait invoke its callback with — the session-closed error,
without any dereference of the destroyed session (the weak reference resolves
to nothing). -/
theorem c7_dead_session_short_circuits (now expiration : Int)
    (h : now ≤ expiration) :
    TransportLayerASIO.wait true now expiration false
      = WaitResult.status TStatus.sessionClosed ∧
    TransportLayerASIO.asyncWait true now expiration false
      = AsyncWaitResult.callback TStatus.sessionClosed := by
  have hlt : ¬expiration < now := not_lt.mpr h
  constructor
  · simp [ TransportLayerASIO.wait, hlt]
  · simp [ TransportLayerASIO.asyncWait, hlt]

/-- C7 witness: the amended claim at expiration 0, now 0. -/
theorem c7_dead_session_short_circuits_witness :
    (0 : Int) ≤ 0 ∧
    ( TransportLayerASIO.wait true 0 0 false
       = WaitResult.status TStatus.sessionClosed ∧
     TransportLayerASIO.asyncWait true 0 0 false
       = AsyncWaitResult.callback TStatus.sessionClosed) :=
  ⟨le_refl 0, c7_dead_session_short_circuits 0 0 (le_refl 0)⟩

/-- C8: the claim that the synchronous wait path returns a stored completion
result immediately fails on the code: ASIOSession::wait() only polls the
reactor once and produces no status at all, leaving an engaged completion
slot untouched (first conjunct), even though the consuming
getOperationStatus() — which nothing on the wait path ever calls — would
have returned and cleared it (second conjunct). -/
theorem c8_session_wait_ignores_completion_slot :
    ASIOSession.wait { status := some TStatus.ok, callback := false }
      = ({ status := some TStatus.ok, callback := false }, none) ∧
    ASIOSession.getOperationStatus
        { status := some TStatus.ok, callback := false }
      = some ({ status := none, callback := false }, some TStatus.ok) :=
  ⟨rfl, rfl⟩

/-- C9 counterexample: with a reserve of two threads, three running workers
and no pending work, two threads both observe _threadsRunning = 3 above the
idle threshold before either has decremented it; both then exit, leaving the
executor running with a single worker — below the reserve — and no mechanism
ever restores it. -/
theorem c9_counterexample :
    runTrace cfgR2 (start cfgR2)
      [ExecAction.startThread 0, ExecAction.startThread 1,
       ExecAction.schedule, ExecAction.startThread 0, ExecAction.runTask 0,
       ExecAction.idleObserve 1, ExecAction.idleObserve 2,
       ExecAction.finishExit 1, ExecAction.finishExit 1]
      = some { isRunning := true, threadsRunning := 1, tasksExecuting := 0,
               threads := [TPhase.looping 1] } ∧
    ([TPhase.looping 1] : List TPhase).length < cfgR2.reserveThreads :=
  ⟨rfl, by decide⟩

/-- C9 amended: provided each worker's exit decision (idle, age or shutdown
observation) and its decrement of the running-thread count execute without
interleaving with another worker's exit, the executor pool invariant holds
along every trace: the _threadsRunning counter agrees with the number of
looping workers and, while the executor is running, the pool never drops
below the configured reserve; a thread retiring for age first spawns its
replacement, idle exits require the observed count to exceed the reserve
threshold, and _schedule rejects tasks whenever the executor is not
running. -/
theorem c9_pool_invariant_serialized (cfg : Cfg) (acts : List ExecAction)
    (s s' : ExecState) (hInv : Inv cfg s)
    (h : runTraceSerialized cfg s acts = some s') :
    Inv cfg s' ∧
    ∀ t : ExecState, t.isRunning = false → _schedule cfg t = none := by
  refine ⟨runTraceSerialized_inv cfg acts s s' hInv h, ?_⟩
  intro t ht
  simp [_schedule, ht]

/-- C9 witness: the amended claim along a concrete serialized trace from the
freshly-started executor with reserve two: spawn-up, one scheduled task, one
executed task and one idle exit, ending with two looping workers. -/
theorem c9_pool_invariant_serialized_witness :
    (Inv cfgR2 { isRunning := true, threadsRunning := 2, tasksExecuting := 0,
                 threads := [TPhase.looping 1, TPhase.looping 0] } ∧
     ∀ t : ExecState, t.isRunning = false → _schedule cfgR2 t = none) :=
  c9_pool_invariant_serialized cfgR2
    [ExecAction.startThread 0, ExecAction.startThread 1,
     ExecAction.schedule, ExecAction.startThread 0, ExecAction.runTask 0,
     ExecAction.idleObserve 1]
    (start cfgR2)
    { isRunning := true, threadsRunning := 2, tasksExecuting := 0,
      threads := [TPhase.looping 1, TPhase.looping 0] }
    ⟨rfl, fun _ => by decide⟩ rfl

/-- C10: confirmed — the accept completion handler ignores its error code
entirely: for every value of the accept error code it performs the identical
effects — marks the socket non-blocking, constructs a session, registers it,
hands it to the dispatcher's startSession and re-arms the accept loop — so an
accept failure is never surfaced and yields a session over an invalid
socket. -/
theorem c10_accept_handler_ignores_error (ec : Nat) :
    acceptHandler ec
      = { madeSocketNonBlocking := true, constructedSession := true,
          registeredSession := true, handedToDispatcher := true,
          rearmedAccept := true } ∧
    acceptHandler ec = acceptHandler 0 :=
  ⟨rfl, rfl⟩

end MongoTransport
